import Mathlib

/-!
Shallow embedding of the AutoReact cog (`src/autoreact/autoreact.py`):
the per-guild admission queue, the worker loop, the per-message processor
with bounded retry, the permission-failure handler, and emoji-key
normalization.  Stateful code is modelled by explicit state passing and
trace-producing functions; sleeps are recorded as rational durations in
seconds; downstream results of `message.add_reaction` are supplied as an
oracle `Nat → ApplyResult` indexed by the attempt counter.
-/

/-- `AutoReact.DEFAULT_QUEUE_MAXSIZE` (line 25 of the source). -/
def DEFAULT_QUEUE_MAXSIZE : Nat := 1000

/-- Per-guild settings registered in `Config.register_guild` (lines 32-43). -/
structure GuildSettings where
  enabled : Bool
  channel_id : Option Nat
  emoji_raw : Option String
  ignore_bots : Bool
  ignore_webhooks : Bool
  per_item_delay_ms : Int
  max_retry : Int
  auto_disable_on_forbidden : Bool
  logging_enabled : Bool
  log_channel_id : Option Nat
deriving Repr, DecidableEq

/-- The runtime emoji value produced by `_to_runtime_emoji`: a plain
unicode string, a `discord.Emoji` (guild emoji) or a `discord.PartialEmoji`
(whose `id` and `name` may be absent). -/
inductive RuntimeEmoji where
  | uni (s : String)
  | guildEmoji (animated : Bool) (id : Nat) (name : String)
  | parsedEmoji (animated : Bool) (id : Option Nat) (name : Option String)
deriving Repr, DecidableEq

/-- `_emoji_key` (lines 218-227): `"u:<string>"` for a plain string,
`"c:<a|s>:<id>"` for a guild emoji or a partial emoji that has an id,
`"u:<name or empty>"` for a partial emoji without id. -/
def emojiKey : RuntimeEmoji → String
  | .uni s => "u:" ++ s
  | .guildEmoji animated id _ =>
      "c:" ++ (if animated then "a" else "s") ++ ":" ++ toString id
  | .parsedEmoji animated id name =>
      match id with
      | some i => "c:" ++ (if animated then "a" else "s") ++ ":" ++ toString i
      | none => "u:" ++ name.getD ""

/-- `_has_same_reaction` (lines 211-216): scan the message's reactions for
one whose normalized key equals the target's key. -/
def hasSameReaction (reactions : List RuntimeEmoji) (emoji : RuntimeEmoji) : Bool :=
  reactions.any fun r => emojiKey r == emojiKey emoji

/-- An inbound `discord.Message`, with the fields the processor reads. -/
structure Message where
  guild_id : Option Nat
  channel_id : Nat
  author_is_bot : Bool
  webhook_id : Option Nat
  reactions : List RuntimeEmoji
deriving Repr, DecidableEq

/-- Result of one `message.add_reaction` call, as classified by the
`except` arms of `_process_message` (lines 152-167). -/
inductive ApplyResult where
  | success
  | forbidden
  | notFound
  | httpError (status : Nat)
deriving Repr, DecidableEq

/-- The retry condition of line 163: `exc.status == 429 or 500 <= exc.status < 600`. -/
def isTransientStatus (status : Nat) : Bool :=
  status == 429 || (decide (500 ≤ status) && decide (status < 600))

/-- `max(0, int(settings["max_retry"]))` (line 149). -/
def effectiveMaxRetry (maxRetry : Int) : Nat :=
  (max 0 maxRetry).toNat

/-- How the retry loop of `_process_message` ended. -/
inductive RetryOutcome where
  | success
  | forbiddenStop
  | vanished
  | droppedTransient
deriving Repr, DecidableEq

/-- Trace of the retry loop: number of `add_reaction` calls, increments of
`_failure_count`, backoff sleeps (seconds, in order), and how it ended. -/
structure RetryRes where
  calls : Nat
  failedDelta : Nat
  sleeps : List ℚ
  outcome : RetryOutcome
deriving Repr, DecidableEq

/-- The `while True` loop of lines 151-167.  `attempt` is the loop
variable; `fuel` is an upper bound on remaining iterations (the loop body
recurses only while `attempt < maxRetry`, so `maxRetry + 1 - attempt` fuel
always suffices).  On a transient retry the code first does `attempt += 1`
and then sleeps `1.0 + attempt * 2.0` seconds. -/
def retryGo (outcomes : Nat → ApplyResult) (maxRetry : Nat) :
    Nat → Nat → RetryRes
  | _, 0 => { calls := 0, failedDelta := 0, sleeps := [], outcome := .droppedTransient }
  | attempt, fuel + 1 =>
    match outcomes attempt with
    | .success => { calls := 1, failedDelta := 0, sleeps := [], outcome := .success }
    | .forbidden => { calls := 1, failedDelta := 1, sleeps := [], outcome := .forbiddenStop }
    | .notFound => { calls := 1, failedDelta := 0, sleeps := [], outcome := .vanished }
    | .httpError status =>
      if decide (attempt < maxRetry) && isTransientStatus status then
        let rest := retryGo outcomes maxRetry (attempt + 1) fuel
        { calls := rest.calls + 1
          failedDelta := rest.failedDelta + 1
          sleeps := (1 + ((attempt + 1 : Nat) : ℚ) * 2) :: rest.sleeps
          outcome := rest.outcome }
      else
        { calls := 1, failedDelta := 1, sleeps := [], outcome := .droppedTransient }

/-- The full retry loop, entered with `attempt = 0`. -/
def retryLoop (outcomes : Nat → ApplyResult) (maxRetry : Nat) : RetryRes :=
  retryGo outcomes maxRetry 0 (maxRetry + 1)

/-- `_sleep_delay` (lines 197-200): clamp `per_item_delay_ms` to
[100, 2000] and sleep that many milliseconds, expressed in seconds. -/
def sleepDelay (perItemDelayMs : Int) : ℚ :=
  ((min 2000 (max 100 perItemDelayMs) : Int) : ℚ) / 1000

/-- Observable trace of one `_process_message` invocation. -/
structure ProcessTrace where
  applyCalls : Nat
  failedDelta : Nat
  backoffSleeps : List ℚ
  pacingSleeps : List ℚ
  retryOutcome : Option RetryOutcome
  forbiddenHandled : Bool
deriving Repr, DecidableEq

/-- The trace of a silently discarded item. -/
def emptyTrace : ProcessTrace :=
  { applyCalls := 0, failedDelta := 0, backoffSleeps := [], pacingSleeps := []
    retryOutcome := none, forbiddenHandled := false }

/-- `_process_message` (lines 123-169).  `resolve` models
`_to_runtime_emoji` (which consults the external emoji cache); `outcomes`
supplies the downstream result of each `add_reaction` attempt. -/
def processMessage (s : GuildSettings) (msg : Message)
    (resolve : String → Option RuntimeEmoji) (outcomes : Nat → ApplyResult) :
    ProcessTrace :=
  if msg.guild_id = none then emptyTrace
  else if s.enabled = false then emptyTrace
  else
    match s.channel_id, s.emoji_raw with
    | some cid, some raw =>
      if msg.channel_id ≠ cid then emptyTrace
      else
        match resolve raw with
        | none => { emptyTrace with failedDelta := 1 }
        | some emoji =>
          if hasSameReaction msg.reactions emoji then
            { emptyTrace with pacingSleeps := [sleepDelay s.per_item_delay_ms] }
          else
            let r := retryLoop outcomes (effectiveMaxRetry s.max_retry)
            { applyCalls := r.calls
              failedDelta := r.failedDelta
              backoffSleeps := r.sleeps
              pacingSleeps := [sleepDelay s.per_item_delay_ms]
              retryOutcome := some r.outcome
              forbiddenHandled := r.outcome == .forbiddenStop }
    | _, _ => emptyTrace

/-- Per-guild admission queue plus the `_dropped_count` entry. -/
structure QueueState where
  queue : List Nat
  dropped : Nat
deriving Repr, DecidableEq

/-- The `queue.put_nowait` / `except QueueFull` block of `on_message`
(lines 91-94): a non-blocking enqueue that, on overflow, increments
`dropped` and leaves the queue unchanged. -/
def putNowait (st : QueueState) (m : Nat) : QueueState :=
  if st.queue.length < DEFAULT_QUEUE_MAXSIZE then
    { st with queue := st.queue ++ [m] }
  else
    { st with dropped := st.dropped + 1 }

/-- In-memory state read and written by `_handle_forbidden`:
`_forbidden_warned_at` (an association list standing for the dict, with
the dict's `.get(key, 0.0)` default) and the `enabled` flag of the
settings store. -/
structure CogState where
  warnedAt : List ((Nat × Nat) × ℚ)
  storeEnabled : Bool
deriving Repr, DecidableEq

/-- `self._forbidden_warned_at.get(warn_key, 0.0)` (line 179). -/
def lookupWarn (l : List ((Nat × Nat) × ℚ)) (key : Nat × Nat) : ℚ :=
  match l.find? (fun p => p.1 == key) with
  | some p => p.2
  | none => 0

/-- Notifications that `_handle_forbidden` can emit through `_maybe_log`. -/
inductive Notification where
  | missingPermission
  | autoDisabled
deriving Repr, DecidableEq

/-- `_maybe_log` (lines 229-245): re-reads `logging_enabled` and requires
the log channel to be set and to resolve to a text channel (`logChOk`);
otherwise the call is a no-op. -/
def maybeLogEmit (s : GuildSettings) (logChOk : Bool) (note : Notification) :
    List Notification :=
  if s.logging_enabled && logChOk then [note] else []

/-- Result of one `_handle_forbidden` invocation. -/
structure ForbiddenTrace where
  state : CogState
  notifs : List Notification
  enabledWrites : Nat
deriving Repr, DecidableEq

/-- `_handle_forbidden` (lines 171-195): cooldown-gated missing-permission
warning keyed by (guild, channel) using `now - last_warn >= 60.0`, then
the optional auto-disable that sets `enabled` to `False` in the settings
store and logs, gated only by `auto_disable_on_forbidden` and
`logging_enabled`. -/
def handleForbidden (s : GuildSettings) (logChOk : Bool) (gid cid : Nat)
    (now : ℚ) (st : CogState) : ForbiddenTrace :=
  let key := (gid, cid)
  let lastWarn := lookupWarn st.warnedAt key
  let warned1 :=
    if 60 ≤ now - lastWarn then (key, now) :: st.warnedAt else st.warnedAt
  let notifs1 :=
    if 60 ≤ now - lastWarn then
      (if s.logging_enabled then maybeLogEmit s logChOk .missingPermission else [])
    else []
  if s.auto_disable_on_forbidden then
    { state := { warnedAt := warned1, storeEnabled := false }
      notifs := notifs1 ++ (if s.logging_enabled then maybeLogEmit s logChOk .autoDisabled else [])
      enabledWrites := 1 }
  else
    { state := { warnedAt := warned1, storeEnabled := st.storeEnabled }
      notifs := notifs1
      enabledWrites := 0 }

/-- Outcome of `_process_message` as seen by the `try` of `_worker_loop`:
normal return, an unexpected exception, or `asyncio.CancelledError`. -/
inductive ProcOutcome where
  | ok
  | fault
  | cancelled
deriving Repr, DecidableEq

/-- Observable trace of `_worker_loop`. -/
structure WorkerTrace where
  processed : Nat
  completed : Nat
  faultPauses : Nat
  cancelledOut : Bool
deriving Repr, DecidableEq

/-- `_worker_loop` (lines 109-121) run over a finite schedule of item
outcomes: each item is popped, processed, and `task_done` always runs in
the `finally`; an unexpected fault is logged, a 1-second pause is taken
and the loop continues; `CancelledError` is re-raised and ends the loop. -/
def workerLoop : List ProcOutcome → WorkerTrace
  | [] => { processed := 0, completed := 0, faultPauses := 0, cancelledOut := false }
  | o :: rest =>
    match o with
    | .ok =>
      let t := workerLoop rest
      { processed := t.processed + 1, completed := t.completed + 1
        faultPauses := t.faultPauses, cancelledOut := t.cancelledOut }
    | .fault =>
      let t := workerLoop rest
      { processed := t.processed + 1, completed := t.completed + 1
        faultPauses := t.faultPauses + 1, cancelledOut := t.cancelledOut }
    | .cancelled =>
      { processed := 1, completed := 1, faultPauses := 0, cancelledOut := true }

/-! Concrete fixtures used by counterexamples and witnesses. -/

/-- Settings with `max_retry = 2`, a configured channel and emoji. -/
def exSettings : GuildSettings :=
  { enabled := true, channel_id := some 1, emoji_raw := some "ok"
    ignore_bots := false, ignore_webhooks := false, per_item_delay_ms := 350
    max_retry := 2, auto_disable_on_forbidden := false
    logging_enabled := false, log_channel_id := none }

/-- `exSettings` with logging enabled and a log channel set. -/
def exLogSettings : GuildSettings :=
  { exSettings with logging_enabled := true, log_channel_id := some 5 }

/-- `exLogSettings` with auto-disable-on-forbidden enabled. -/
def exAutoSettings : GuildSettings :=
  { exLogSettings with auto_disable_on_forbidden := true }

/-- A message in the configured channel with no existing reactions. -/
def exMsg : Message :=
  { guild_id := some 1, channel_id := 1, author_is_bot := false
    webhook_id := none, reactions := [] }

/-- `exMsg` but already carrying the configured reaction. -/
def exMsgDup : Message :=
  { exMsg with reactions := [RuntimeEmoji.uni "ok"] }

/-- A resolver that maps every raw spec to the unicode emoji `"ok"`. -/
def exResolve : String → Option RuntimeEmoji := fun _ => some (RuntimeEmoji.uni "ok")

/-! Helper lemmas about the retry loop. -/

/-- Backoff sleeps produced by a run that takes `m` transient retries
starting from attempt counter `attempt`. -/
def transientSleeps (attempt : Nat) : Nat → List ℚ
  | 0 => []
  | m + 1 => (1 + ((attempt + 1 : Nat) : ℚ) * 2) :: transientSleeps (attempt + 1) m

lemma transientSleeps_eq_map (m : Nat) : ∀ attempt : Nat,
    transientSleeps attempt m
      = (List.range m).map (fun k => 1 + ((attempt + k + 1 : Nat) : ℚ) * 2) := by
  induction m with
  | zero => intro attempt; simp [transientSleeps]
  | succ n ih =>
    intro attempt
    rw [List.range_succ_eq_map]
    simp only [transientSleeps, ih (attempt + 1), List.map_cons, List.map_map]
    congr 1
    apply List.map_congr_left
    intro k _
    simp only [Function.comp]
    push_cast
    ring

lemma retryGo_transient (outcomes : Nat → ApplyResult) (maxRetry : Nat)
    (htr : ∀ n, ∃ st, outcomes n = ApplyResult.httpError st ∧ isTransientStatus st = true) :
    ∀ fuel attempt, attempt + fuel = maxRetry + 1 →
      retryGo outcomes maxRetry attempt fuel =
        { calls := fuel, failedDelta := fuel
          sleeps := transientSleeps attempt (fuel - 1)
          outcome := RetryOutcome.droppedTransient } := by
  intro fuel
  induction fuel with
  | zero =>
    intro attempt _
    simp [retryGo, transientSleeps]
  | succ f ih =>
    intro attempt h
    obtain ⟨st, ho, hts⟩ := htr attempt
    rcases Nat.eq_zero_or_pos f with hf | hf
    · subst hf
      have ha : attempt = maxRetry := by omega
      subst ha
      simp [retryGo, ho, hts, transientSleeps]
    · have hlt : attempt < maxRetry := by omega
      have hrest := ih (attempt + 1) (by omega)
      have hu : transientSleeps attempt f
          = (1 + ((attempt + 1 : Nat) : ℚ) * 2) :: transientSleeps (attempt + 1) (f - 1) := by
        conv_lhs => rw [← Nat.succ_pred_eq_of_pos hf]
        rfl
      simp [retryGo, ho, hts, hlt, hrest, hu]

lemma retryLoop_transient (outcomes : Nat → ApplyResult) (maxRetry : Nat)
    (htr : ∀ n, ∃ st, outcomes n = ApplyResult.httpError st ∧ isTransientStatus st = true) :
    retryLoop outcomes maxRetry =
      { calls := maxRetry + 1, failedDelta := maxRetry + 1
        sleeps := transientSleeps 0 maxRetry
        outcome := RetryOutcome.droppedTransient } := by
  simpa [retryLoop] using retryGo_transient outcomes maxRetry htr (maxRetry + 1) 0 (by omega)

lemma retryLoop_success (outcomes : Nat → ApplyResult) (maxRetry : Nat)
    (h : outcomes 0 = ApplyResult.success) :
    retryLoop outcomes maxRetry =
      { calls := 1, failedDelta := 0, sleeps := [], outcome := RetryOutcome.success } := by
  simp [retryLoop, retryGo, h]

lemma retryLoop_forbidden (outcomes : Nat → ApplyResult) (maxRetry : Nat)
    (h : outcomes 0 = ApplyResult.forbidden) :
    retryLoop outcomes maxRetry =
      { calls := 1, failedDelta := 1, sleeps := [], outcome := RetryOutcome.forbiddenStop } := by
  simp [retryLoop, retryGo, h]

lemma retryLoop_notFound (outcomes : Nat → ApplyResult) (maxRetry : Nat)
    (h : outcomes 0 = ApplyResult.notFound) :
    retryLoop outcomes maxRetry =
      { calls := 1, failedDelta := 0, sleeps := [], outcome := RetryOutcome.vanished } := by
  simp [retryLoop, retryGo, h]

lemma retryLoop_nonTransient (outcomes : Nat → ApplyResult) (maxRetry status : Nat)
    (h : outcomes 0 = ApplyResult.httpError status)
    (hnt : isTransientStatus status = false) :
    retryLoop outcomes maxRetry =
      { calls := 1, failedDelta := 1, sleeps := [], outcome := RetryOutcome.droppedTransient } := by
  simp [retryLoop, retryGo, h, hnt]

lemma retryLoop_zeroRetry (outcomes : Nat → ApplyResult) (status : Nat)
    (h : outcomes 0 = ApplyResult.httpError status) :
    retryLoop outcomes 0 =
      { calls := 1, failedDelta := 1, sleeps := [], outcome := RetryOutcome.droppedTransient } := by
  simp [retryLoop, retryGo, h]

/-! Helper lemmas about `processMessage` on each control-flow path. -/

lemma processMessage_disabled (s : GuildSettings) (msg : Message)
    (resolve : String → Option RuntimeEmoji) (outcomes : Nat → ApplyResult)
    (hen : s.enabled = false) :
    processMessage s msg resolve outcomes = emptyTrace := by
  simp [processMessage, hen]

lemma processMessage_resolveFail (s : GuildSettings) (msg : Message)
    (resolve : String → Option RuntimeEmoji) (outcomes : Nat → ApplyResult)
    (gid cid : Nat) (raw : String)
    (hg : msg.guild_id = some gid) (hen : s.enabled = true)
    (hch : s.channel_id = some cid) (hraw : s.emoji_raw = some raw)
    (hcm : msg.channel_id = cid) (hres : resolve raw = none) :
    processMessage s msg resolve outcomes = { emptyTrace with failedDelta := 1 } := by
  simp [processMessage, hg, hen, hch, hraw, hcm, hres]

lemma processMessage_dup (s : GuildSettings) (msg : Message)
    (resolve : String → Option RuntimeEmoji) (outcomes : Nat → ApplyResult)
    (gid cid : Nat) (raw : String) (e : RuntimeEmoji)
    (hg : msg.guild_id = some gid) (hen : s.enabled = true)
    (hch : s.channel_id = some cid) (hraw : s.emoji_raw = some raw)
    (hcm : msg.channel_id = cid) (hres : resolve raw = some e)
    (hdup : hasSameReaction msg.reactions e = true) :
    processMessage s msg resolve outcomes =
      { emptyTrace with pacingSleeps := [sleepDelay s.per_item_delay_ms] } := by
  simp [processMessage, hg, hen, hch, hraw, hcm, hres, hdup]

lemma processMessage_run (s : GuildSettings) (msg : Message)
    (resolve : String → Option RuntimeEmoji) (outcomes : Nat → ApplyResult)
    (gid cid : Nat) (raw : String) (e : RuntimeEmoji)
    (hg : msg.guild_id = some gid) (hen : s.enabled = true)
    (hch : s.channel_id = some cid) (hraw : s.emoji_raw = some raw)
    (hcm : msg.channel_id = cid) (hres : resolve raw = some e)
    (hdup : hasSameReaction msg.reactions e = false) :
    processMessage s msg resolve outcomes =
      { applyCalls := (retryLoop outcomes (effectiveMaxRetry s.max_retry)).calls
        failedDelta := (retryLoop outcomes (effectiveMaxRetry s.max_retry)).failedDelta
        backoffSleeps := (retryLoop outcomes (effectiveMaxRetry s.max_retry)).sleeps
        pacingSleeps := [sleepDelay s.per_item_delay_ms]
        retryOutcome := some (retryLoop outcomes (effectiveMaxRetry s.max_retry)).outcome
        forbiddenHandled :=
          (retryLoop outcomes (effectiveMaxRetry s.max_retry)).outcome
            == RetryOutcome.forbiddenStop } := by
  simp [processMessage, hg, hen, hch, hraw, hcm, hres, hdup]

/-! Helper lemmas about `_handle_forbidden` and the cooldown map. -/

lemma lookupWarn_cons_self (l : List ((Nat × Nat) × ℚ)) (key : Nat × Nat) (t : ℚ) :
    lookupWarn ((key, t) :: l) key = t := by
  simp [lookupWarn, List.find?]

lemma handleForbidden_notifs (s : GuildSettings) (logChOk : Bool) (gid cid : Nat)
    (now : ℚ) (st : CogState) :
    (handleForbidden s logChOk gid cid now st).notifs =
      (if 60 ≤ now - lookupWarn st.warnedAt (gid, cid)
            ∧ s.logging_enabled = true ∧ logChOk = true
        then [Notification.missingPermission] else []) ++
      (if s.auto_disable_on_forbidden = true ∧ s.logging_enabled = true ∧ logChOk = true
        then [Notification.autoDisabled] else []) := by
  simp only [handleForbidden, maybeLogEmit]
  split_ifs <;> simp_all

lemma handleForbidden_warnedAt (s : GuildSettings) (logChOk : Bool) (gid cid : Nat)
    (now : ℚ) (st : CogState) :
    (handleForbidden s logChOk gid cid now st).state.warnedAt =
      if 60 ≤ now - lookupWarn st.warnedAt (gid, cid)
        then ((gid, cid), now) :: st.warnedAt else st.warnedAt := by
  simp only [handleForbidden]
  split_ifs <;> simp_all

lemma handleForbidden_storeEnabled (s : GuildSettings) (logChOk : Bool) (gid cid : Nat)
    (now : ℚ) (st : CogState) :
    (handleForbidden s logChOk gid cid now st).state.storeEnabled =
      if s.auto_disable_on_forbidden = true then false else st.storeEnabled := by
  simp only [handleForbidden]
  split_ifs <;> simp_all

lemma handleForbidden_enabledWrites (s : GuildSettings) (logChOk : Bool) (gid cid : Nat)
    (now : ℚ) (st : CogState) :
    (handleForbidden s logChOk gid cid now st).enabledWrites =
      if s.auto_disable_on_forbidden = true then 1 else 0 := by
  simp only [handleForbidden]
  split_ifs <;> simp_all

/-! Helper lemmas about `_worker_loop`. -/

lemma workerLoop_completed_eq (outs : List ProcOutcome) :
    (workerLoop outs).completed = (workerLoop outs).processed := by
  induction outs with
  | nil => rfl
  | cons o rest ih => cases o <;> simp [workerLoop, ih]

lemma workerLoop_no_cancel (outs : List ProcOutcome)
    (h : ProcOutcome.cancelled ∉ outs) :
    (workerLoop outs).processed = outs.length ∧
    (workerLoop outs).cancelledOut = false := by
  induction outs with
  | nil => simp [workerLoop]
  | cons o rest ih =>
    simp only [List.mem_cons, not_or] at h
    cases o <;> simp_all [workerLoop]

lemma workerLoop_cancel (pre post : List ProcOutcome)
    (h : ProcOutcome.cancelled ∉ pre) :
    (workerLoop (pre ++ ProcOutcome.cancelled :: post)).processed = pre.length + 1 ∧
    (workerLoop (pre ++ ProcOutcome.cancelled :: post)).cancelledOut = true := by
  induction pre with
  | nil => simp [workerLoop]
  | cons o rest ih =>
    simp only [List.mem_cons, not_or] at h
    cases o <;> simp_all [workerLoop]

/-! Claim theorems. -/

/-- C1 (counterexample): with `max_retry = 2` and a downstream that always
returns HTTP 500, processing one event makes exactly 3 `add_reaction`
calls, but `_failure_count` grows by 3, not by 1 as the claim states,
because line 162 increments it on every failed attempt. -/
theorem C1_counterexample :
    (processMessage exSettings exMsg exResolve (fun _ => ApplyResult.httpError 500)).applyCalls = 3 ∧
    (processMessage exSettings exMsg exResolve (fun _ => ApplyResult.httpError 500)).failedDelta = 3 ∧
    (processMessage exSettings exMsg exResolve (fun _ => ApplyResult.httpError 500)).failedDelta ≠ 1 := by
  refine ⟨?_, ?_, ?_⟩ <;> decide

/-- C1 (amended): for every enabled, configured group with `max_retry = 2`
and a matching message carrying no duplicate reaction, if every attempt
returns a transient error then exactly 3 `add_reaction` calls occur
(1 initial + 2 retries), the item is dropped, and the failure counter
increases by exactly 3 — one increment per failed attempt — not by 1. -/
theorem C1_retry_bound (s : GuildSettings) (msg : Message)
    (resolve : String → Option RuntimeEmoji) (outcomes : Nat → ApplyResult)
    (gid cid : Nat) (raw : String) (e : RuntimeEmoji)
    (hg : msg.guild_id = some gid) (hen : s.enabled = true)
    (hch : s.channel_id = some cid) (hraw : s.emoji_raw = some raw)
    (hcm : msg.channel_id = cid) (hres : resolve raw = some e)
    (hdup : hasSameReaction msg.reactions e = false)
    (hmr : s.max_retry = 2)
    (htr : ∀ n, ∃ st, outcomes n = ApplyResult.httpError st ∧ isTransientStatus st = true) :
    (processMessage s msg resolve outcomes).applyCalls = 3 ∧
    (processMessage s msg resolve outcomes).failedDelta = 3 ∧
    (processMessage s msg resolve outcomes).retryOutcome
      = some RetryOutcome.droppedTransient := by
  have h2 : effectiveMaxRetry s.max_retry = 2 := by rw [hmr]; rfl
  rw [processMessage_run s msg resolve outcomes gid cid raw e hg hen hch hraw hcm hres hdup,
    h2, retryLoop_transient outcomes 2 htr]
  exact ⟨rfl, rfl, rfl⟩

/-- C1 witness: the amended retry bound at a concrete always-503 downstream. -/
theorem C1_retry_bound_witness :
    (processMessage exSettings exMsg exResolve (fun _ => ApplyResult.httpError 503)).applyCalls = 3 ∧
    (processMessage exSettings exMsg exResolve (fun _ => ApplyResult.httpError 503)).failedDelta = 3 ∧
    (processMessage exSettings exMsg exResolve (fun _ => ApplyResult.httpError 503)).retryOutcome
      = some RetryOutcome.droppedTransient :=
  C1_retry_bound exSettings exMsg exResolve (fun _ => ApplyResult.httpError 503)
    1 1 "ok" (RuntimeEmoji.uni "ok") rfl rfl rfl rfl rfl rfl rfl rfl
    (fun _ => ⟨503, rfl, by decide⟩)

/-- C2 (counterexample): with `max_retry = 2` and always-transient errors
the two retry sleeps are 3 and 5 seconds, not 1 and 3: the code increments
`attempt` before computing `1.0 + attempt * 2.0`. -/
theorem C2_counterexample :
    (processMessage exSettings exMsg exResolve (fun _ => ApplyResult.httpError 500)).backoffSleeps
        = [3, 5] ∧
    ([3, 5] : List ℚ) ≠ [1, 3] := by
  constructor
  · rw [processMessage_run exSettings exMsg exResolve (fun _ => ApplyResult.httpError 500)
      1 1 "ok" (RuntimeEmoji.uni "ok") rfl rfl rfl rfl rfl rfl rfl,
      show effectiveMaxRetry exSettings.max_retry = 2 from rfl,
      retryLoop_transient _ 2 (fun _ => ⟨500, rfl, by decide⟩)]
    norm_num [transientSleeps]
  · norm_num

/-- C2 (amended): when the k-th retry is taken (k = 1, 2, …), the
processor first increments `attempt` and then sleeps
`1.0 + attempt * 2.0` seconds with the incremented value, so successive
retry sleeps are 3s, 5s, 7s, …: in a run with `max_retry = m` and
always-transient errors, the backoff sleeps are exactly
`[1 + 1*2, 1 + 2*2, …, 1 + m*2]`. -/
theorem C2_backoff_schedule (s : GuildSettings) (msg : Message)
    (resolve : String → Option RuntimeEmoji) (outcomes : Nat → ApplyResult)
    (gid cid : Nat) (raw : String) (e : RuntimeEmoji) (m : Nat)
    (hg : msg.guild_id = some gid) (hen : s.enabled = true)
    (hch : s.channel_id = some cid) (hraw : s.emoji_raw = some raw)
    (hcm : msg.channel_id = cid) (hres : resolve raw = some e)
    (hdup : hasSameReaction msg.reactions e = false)
    (hmr : s.max_retry = (m : Int))
    (htr : ∀ n, ∃ st, outcomes n = ApplyResult.httpError st ∧ isTransientStatus st = true) :
    (processMessage s msg resolve outcomes).backoffSleeps
      = (List.range m).map (fun k => 1 + ((k + 1 : Nat) : ℚ) * 2) := by
  have hm : effectiveMaxRetry s.max_retry = m := by
    rw [hmr]; unfold effectiveMaxRetry; omega
  rw [processMessage_run s msg resolve outcomes gid cid raw e hg hen hch hraw hcm hres hdup,
    hm, retryLoop_transient outcomes m htr]
  simpa using transientSleeps_eq_map m 0

/-- C2 witness: the amended backoff schedule at a concrete always-429
downstream with `max_retry = 2`. -/
theorem C2_backoff_schedule_witness :
    (processMessage exSettings exMsg exResolve (fun _ => ApplyResult.httpError 429)).backoffSleeps
      = (List.range 2).map (fun k => 1 + ((k + 1 : Nat) : ℚ) * 2) :=
  C2_backoff_schedule exSettings exMsg exResolve (fun _ => ApplyResult.httpError 429)
    1 1 "ok" (RuntimeEmoji.uni "ok") 2 rfl rfl rfl rfl rfl rfl rfl rfl
    (fun _ => ⟨429, rfl, by decide⟩)

/-- C3 (counterexample): when the action spec fails to resolve
(`_to_runtime_emoji` returns `None`), the failure counter is incremented
(line 142), contradicting the claim that configuration-discard paths never
increment it. -/
theorem C3_counterexample :
    (processMessage exSettings exMsg (fun _ => none) (fun _ => ApplyResult.success)).failedDelta = 1 ∧
    (processMessage exSettings exMsg (fun _ => none) (fun _ => ApplyResult.success)).applyCalls = 0 := by
  refine ⟨?_, ?_⟩ <;> decide

/-- C3 (amended): the failure counter is incremented on the
permission-denied path, on every transient-error attempt, and on the
action-spec-resolution-failure path; it is not incremented on the
vanished-resource path, on the success path, on the duplicate-skip path,
or on the settings-no-longer-valid discard path. -/
theorem C3_failure_partition (s : GuildSettings) (msg : Message)
    (resolve : String → Option RuntimeEmoji) (outcomes : Nat → ApplyResult)
    (gid cid : Nat) (raw : String)
    (hg : msg.guild_id = some gid) (hch : s.channel_id = some cid)
    (hraw : s.emoji_raw = some raw) (hcm : msg.channel_id = cid) :
    (s.enabled = false → processMessage s msg resolve outcomes = emptyTrace) ∧
    (s.enabled = true → resolve raw = none →
      (processMessage s msg resolve outcomes).failedDelta = 1 ∧
      (processMessage s msg resolve outcomes).applyCalls = 0) ∧
    (∀ e, s.enabled = true → resolve raw = some e →
      hasSameReaction msg.reactions e = true →
      (processMessage s msg resolve outcomes).failedDelta = 0) ∧
    (∀ e, s.enabled = true → resolve raw = some e →
      hasSameReaction msg.reactions e = false →
      (outcomes 0 = ApplyResult.notFound →
        (processMessage s msg resolve outcomes).failedDelta = 0) ∧
      (outcomes 0 = ApplyResult.success →
        (processMessage s msg resolve outcomes).failedDelta = 0) ∧
      (outcomes 0 = ApplyResult.forbidden →
        (processMessage s msg resolve outcomes).failedDelta = 1 ∧
        (processMessage s msg resolve outcomes).forbiddenHandled = true) ∧
      (∀ st, s.max_retry = 0 → outcomes 0 = ApplyResult.httpError st →
        (processMessage s msg resolve outcomes).failedDelta = 1)) := by
  refine ⟨?_, ?_, ?_, ?_⟩
  · intro hen
    exact processMessage_disabled s msg resolve outcomes hen
  · intro hen hres
    rw [processMessage_resolveFail s msg resolve outcomes gid cid raw hg hen hch hraw hcm hres]
    exact ⟨rfl, rfl⟩
  · intro e hen hres hdup
    rw [processMessage_dup s msg resolve outcomes gid cid raw e hg hen hch hraw hcm hres hdup]
    rfl
  · intro e hen hres hdup
    refine ⟨?_, ?_, ?_, ?_⟩
    · intro h0
      rw [processMessage_run s msg resolve outcomes gid cid raw e hg hen hch hraw hcm hres hdup,
        retryLoop_notFound outcomes _ h0]
    · intro h0
      rw [processMessage_run s msg resolve outcomes gid cid raw e hg hen hch hraw hcm hres hdup,
        retryLoop_success outcomes _ h0]
    · intro h0
      rw [processMessage_run s msg resolve outcomes gid cid raw e hg hen hch hraw hcm hres hdup,
        retryLoop_forbidden outcomes _ h0]
      exact ⟨rfl, rfl⟩
    · intro st hmr h0
      have hz : effectiveMaxRetry s.max_retry = 0 := by rw [hmr]; rfl
      rw [processMessage_run s msg resolve outcomes gid cid raw e hg hen hch hraw hcm hres hdup,
        hz, retryLoop_zeroRetry outcomes st h0]

/-- C3 witness: the amended partition applied at a concrete resolution
failure. -/
theorem C3_failure_partition_witness :
    (processMessage exSettings exMsg (fun _ => none) (fun _ => ApplyResult.notFound)).failedDelta = 1 ∧
    (processMessage exSettings exMsg (fun _ => none) (fun _ => ApplyResult.notFound)).applyCalls = 0 :=
  (C3_failure_partition exSettings exMsg (fun _ => none) (fun _ => ApplyResult.notFound)
    1 1 "ok" rfl rfl rfl rfl).2.1 rfl rfl

/-- C4 (confirmed): if the message's existing reactions already contain
the normalized key of the configured effect, `add_reaction` is never
invoked, nothing is counted as failed, yet the per-item pacing delay still
elapses before the processor returns. -/
theorem C4_idempotent_skip (s : GuildSettings) (msg : Message)
    (resolve : String → Option RuntimeEmoji) (outcomes : Nat → ApplyResult)
    (gid cid : Nat) (raw : String) (e : RuntimeEmoji)
    (hg : msg.guild_id = some gid) (hen : s.enabled = true)
    (hch : s.channel_id = some cid) (hraw : s.emoji_raw = some raw)
    (hcm : msg.channel_id = cid) (hres : resolve raw = some e)
    (hdup : hasSameReaction msg.reactions e = true) :
    (processMessage s msg resolve outcomes).applyCalls = 0 ∧
    (processMessage s msg resolve outcomes).pacingSleeps
      = [sleepDelay s.per_item_delay_ms] ∧
    (processMessage s msg resolve outcomes).failedDelta = 0 := by
  rw [processMessage_dup s msg resolve outcomes gid cid raw e hg hen hch hraw hcm hres hdup]
  exact ⟨rfl, rfl, rfl⟩

/-- C4 witness: the idempotent skip at a concrete message that already
carries the configured reaction. -/
theorem C4_idempotent_skip_witness :
    (processMessage exSettings exMsgDup exResolve (fun _ => ApplyResult.success)).applyCalls = 0 ∧
    (processMessage exSettings exMsgDup exResolve (fun _ => ApplyResult.success)).pacingSleeps
      = [sleepDelay exSettings.per_item_delay_ms] ∧
    (processMessage exSettings exMsgDup exResolve (fun _ => ApplyResult.success)).failedDelta = 0 :=
  C4_idempotent_skip exSettings exMsgDup exResolve (fun _ => ApplyResult.success)
    1 1 "ok" (RuntimeEmoji.uni "ok") rfl rfl rfl rfl rfl rfl (by decide)

/-- C5 (confirmed): the admission queue's capacity is the fixed constant
1000; a non-blocking enqueue below capacity preserves the length bound,
and an enqueue attempted while the queue is full leaves the queue
unchanged and increments `dropped` by exactly 1. -/
theorem C5_queue_bound :
    DEFAULT_QUEUE_MAXSIZE = 1000 ∧
    (∀ st : QueueState, ∀ m : Nat, st.queue.length ≤ DEFAULT_QUEUE_MAXSIZE →
      (putNowait st m).queue.length ≤ DEFAULT_QUEUE_MAXSIZE) ∧
    (∀ st : QueueState, ∀ m : Nat, DEFAULT_QUEUE_MAXSIZE ≤ st.queue.length →
      (putNowait st m).queue = st.queue ∧
      (putNowait st m).dropped = st.dropped + 1) := by
  refine ⟨rfl, ?_, ?_⟩
  · intro st m h
    unfold putNowait
    split_ifs with hlt
    · simp only [List.length_append, List.length_cons, List.length_nil]
      omega
    · simpa using h
  · intro st m h
    unfold putNowait
    split_ifs with hlt
    · omega
    · exact ⟨rfl, rfl⟩

/-- C5 witness: the queue bound applied to a concrete full queue. -/
theorem C5_queue_bound_witness :
    (putNowait { queue := List.replicate 1000 0, dropped := 5 } 7).queue
        = List.replicate 1000 0 ∧
    (putNowait { queue := List.replicate 1000 0, dropped := 5 } 7).dropped = 6 := by
  have h := C5_queue_bound.2.2 { queue := List.replicate 1000 0, dropped := 5 } 7
    (by rw [List.length_replicate]; exact le_rfl)
  exact ⟨h.1, h.2⟩

/-- C6 (counterexample): two permission-denied events for the same
(guild, channel) exactly 60 seconds apart each produce a
missing-permission notification, because line 181 uses
`now - last_warn >= 60.0`: the second notification fires although not
more than 60 seconds have elapsed since the recorded warning. -/
theorem C6_counterexample :
    (handleForbidden exLogSettings true 1 2 100
        { warnedAt := [], storeEnabled := true }).notifs
      = [Notification.missingPermission] ∧
    (handleForbidden exLogSettings true 1 2 160
        (handleForbidden exLogSettings true 1 2 100
          { warnedAt := [], storeEnabled := true }).state).notifs
      = [Notification.missingPermission] ∧
    (160 : ℚ) - 100 ≤ 60 := by
  refine ⟨?_, ?_, by norm_num⟩
  · rw [handleForbidden_notifs]
    norm_num [lookupWarn, exLogSettings, exSettings]
  · rw [handleForbidden_notifs, handleForbidden_warnedAt]
    norm_num [lookupWarn, exLogSettings, exSettings, List.find?]

/-- C6 (amended): a missing-permission notification is emitted exactly
when at least 60 seconds (not: more than 60) have elapsed since the last
recorded warning for the (guild, channel) key (an unwarned key counts as
last-warned at time 0) and logging is enabled with a usable log channel;
emitting one records the current time as last-warned; and two
permission-denied events strictly less than 60 seconds apart produce at
most one notification for the key. -/
theorem C6_cooldown (s : GuildSettings) (chOk : Bool) (gid cid : Nat)
    (st : CogState) (t1 t2 : ℚ) :
    (Notification.missingPermission ∈ (handleForbidden s chOk gid cid t1 st).notifs ↔
      (60 ≤ t1 - lookupWarn st.warnedAt (gid, cid) ∧
        s.logging_enabled = true ∧ chOk = true)) ∧
    (60 ≤ t1 - lookupWarn st.warnedAt (gid, cid) →
      lookupWarn (handleForbidden s chOk gid cid t1 st).state.warnedAt (gid, cid) = t1) ∧
    (t2 - t1 < 60 →
      (handleForbidden s chOk gid cid t1 st).notifs.count Notification.missingPermission +
        (handleForbidden s chOk gid cid t2
          (handleForbidden s chOk gid cid t1 st).state).notifs.count
            Notification.missingPermission ≤ 1) := by
  refine ⟨?_, ?_, ?_⟩
  · rw [handleForbidden_notifs]
    split_ifs with h1 h2 <;> simp_all
  · intro h
    rw [handleForbidden_warnedAt, if_pos h]
    exact lookupWarn_cons_self st.warnedAt (gid, cid) t1
  · intro hlt
    rw [handleForbidden_notifs, handleForbidden_notifs, handleForbidden_warnedAt]
    by_cases h1 : 60 ≤ t1 - lookupWarn st.warnedAt (gid, cid)
    · rw [if_pos h1, lookupWarn_cons_self]
      have h2 : ¬ 60 ≤ t2 - t1 := by linarith
      split_ifs <;> simp_all [List.count_append, List.count_cons]
    · rw [if_neg h1]
      split_ifs <;> simp_all [List.count_append, List.count_cons]

/-- C6 witness: the amended cooldown rule at concrete times 100 and 130
for an unwarned key: the first event notifies and records, the second,
30 seconds later, does not. -/
theorem C6_cooldown_witness :
    lookupWarn (handleForbidden exLogSettings true 1 2 100
        { warnedAt := [], storeEnabled := true }).state.warnedAt (1, 2) = 100 ∧
    (handleForbidden exLogSettings true 1 2 100
        { warnedAt := [], storeEnabled := true }).notifs.count
          Notification.missingPermission +
      (handleForbidden exLogSettings true 1 2 130
        (handleForbidden exLogSettings true 1 2 100
          { warnedAt := [], storeEnabled := true }).state).notifs.count
            Notification.missingPermission ≤ 1 :=
  ⟨(C6_cooldown exLogSettings true 1 2 { warnedAt := [], storeEnabled := true }
      100 130).2.1 (by norm_num [lookupWarn]),
   (C6_cooldown exLogSettings true 1 2 { warnedAt := [], storeEnabled := true }
      100 130).2.2 (by norm_num)⟩

/-- C7 (confirmed): on a permission-denied event with
`auto_disable_on_forbidden = true`, the handler writes `enabled = false`
to the settings store exactly once and emits exactly one auto-disabled
notification gated only by the logging settings — independent of the
60-second cooldown state and of the event time. -/
theorem C7_auto_disable (s : GuildSettings) (chOk : Bool) (gid cid : Nat)
    (st : CogState) (now : ℚ)
    (had : s.auto_disable_on_forbidden = true) :
    (handleForbidden s chOk gid cid now st).state.storeEnabled = false ∧
    (handleForbidden s chOk gid cid now st).enabledWrites = 1 ∧
    (handleForbidden s chOk gid cid now st).notifs.count Notification.autoDisabled
      = (if s.logging_enabled = true ∧ chOk = true then 1 else 0) := by
  refine ⟨?_, ?_, ?_⟩
  · rw [handleForbidden_storeEnabled, if_pos had]
  · rw [handleForbidden_enabledWrites, if_pos had]
  · rw [handleForbidden_notifs]
    split_ifs <;> simp_all [List.count_append, List.count_cons]

/-- C7 witness: the auto-disable behaviour at a concrete event. -/
theorem C7_auto_disable_witness :
    (handleForbidden exAutoSettings true 1 2 10
        { warnedAt := [], storeEnabled := true }).state.storeEnabled = false ∧
    (handleForbidden exAutoSettings true 1 2 10
        { warnedAt := [], storeEnabled := true }).enabledWrites = 1 ∧
    (handleForbidden exAutoSettings true 1 2 10
        { warnedAt := [], storeEnabled := true }).notifs.count Notification.autoDisabled
      = (if exAutoSettings.logging_enabled = true ∧ true = true then 1 else 0) :=
  C7_auto_disable exAutoSettings true 1 2 { warnedAt := [], storeEnabled := true } 10 rfl

/-- C8 (confirmed): the worker always marks the popped item complete
regardless of the processor outcome; with no cancellation it processes
every item (an unexpected fault pauses it but does not stop it, so the
next item is still processed); a cancellation terminates the loop by
re-raising, right after the item during which it was raised. -/
theorem C8_worker_resilience :
    (∀ outs : List ProcOutcome,
      (workerLoop outs).completed = (workerLoop outs).processed) ∧
    (∀ outs : List ProcOutcome, ProcOutcome.cancelled ∉ outs →
      (workerLoop outs).processed = outs.length ∧
      (workerLoop outs).cancelledOut = false) ∧
    (∀ pre post : List ProcOutcome, ProcOutcome.cancelled ∉ pre →
      (workerLoop (pre ++ ProcOutcome.cancelled :: post)).processed = pre.length + 1 ∧
      (workerLoop (pre ++ ProcOutcome.cancelled :: post)).cancelledOut = true) ∧
    (∀ rest : List ProcOutcome,
      (workerLoop (ProcOutcome.fault :: rest)).faultPauses
        = (workerLoop rest).faultPauses + 1 ∧
      (workerLoop (ProcOutcome.fault :: rest)).processed
        = (workerLoop rest).processed + 1) := by
  refine ⟨workerLoop_completed_eq, workerLoop_no_cancel, workerLoop_cancel, ?_⟩
  intro rest
  exact ⟨rfl, rfl⟩

/-- C8 witness: a fault on the first item does not prevent the second
item from being processed. -/
theorem C8_worker_resilience_witness :
    (workerLoop [ProcOutcome.fault, ProcOutcome.ok]).processed = 2 ∧
    (workerLoop [ProcOutcome.fault, ProcOutcome.ok]).cancelledOut = false :=
  C8_worker_resilience.2.1 [ProcOutcome.fault, ProcOutcome.ok] (by decide)

/-- C9 (confirmed): the normalized key is `"u:" ++ name` for a plain
unicode emoji and `"c:" ++ variant ++ ":" ++ id` for a custom emoji
(guild emoji or id-carrying partial emoji), where the variant
distinguishes animated from static; the name plays no role in a custom
key; and two effects are treated as the same exactly when their
normalized keys are equal strings. -/
theorem C9_emoji_key :
    (∀ s : String, emojiKey (RuntimeEmoji.uni s) = "u:" ++ s) ∧
    (∀ (a : Bool) (i : Nat) (n : String),
      emojiKey (RuntimeEmoji.guildEmoji a i n)
        = "c:" ++ (if a then "a" else "s") ++ ":" ++ toString i) ∧
    (∀ (a : Bool) (i : Nat) (n : Option String),
      emojiKey (RuntimeEmoji.parsedEmoji a (some i) n)
        = "c:" ++ (if a then "a" else "s") ++ ":" ++ toString i) ∧
    (∀ (a : Bool) (i : Nat) (n n2 : String),
      emojiKey (RuntimeEmoji.guildEmoji a i n)
        = emojiKey (RuntimeEmoji.guildEmoji a i n2)) ∧
    (∀ (reactions : List RuntimeEmoji) (e : RuntimeEmoji),
      hasSameReaction reactions e = true ↔
        ∃ r ∈ reactions, emojiKey r = emojiKey e) := by
  refine ⟨fun _ => rfl, fun _ _ _ => rfl, fun _ _ _ => rfl, fun _ _ _ _ => rfl, ?_⟩
  intro reactions e
  simp [hasSameReaction, List.any_eq_true]

/-- C9 witness: the key equivalence applied at a concrete reaction list
containing a custom emoji under a different name. -/
theorem C9_emoji_key_witness :
    hasSameReaction [RuntimeEmoji.guildEmoji false 42 "other"]
        (RuntimeEmoji.guildEmoji false 42 "mine") = true ↔
      ∃ r ∈ [RuntimeEmoji.guildEmoji false 42 "other"],
        emojiKey r = emojiKey (RuntimeEmoji.guildEmoji false 42 "mine") :=
  C9_emoji_key.2.2.2.2 [RuntimeEmoji.guildEmoji false 42 "other"]
    (RuntimeEmoji.guildEmoji false 42 "mine")

/-- C10 (confirmed): a downstream HTTP error whose status is neither 429
nor in 500–599 causes exactly one `add_reaction` call, one failure-counter
increment, and no backoff sleep, no matter how much retry budget remains;
and a negative `max_retry` setting is clamped to 0. -/
theorem C10_non_transient_stop (s : GuildSettings) (msg : Message)
    (resolve : String → Option RuntimeEmoji) (outcomes : Nat → ApplyResult)
    (gid cid : Nat) (raw : String) (e : RuntimeEmoji) (status : Nat)
    (hg : msg.guild_id = some gid) (hen : s.enabled = true)
    (hch : s.channel_id = some cid) (hraw : s.emoji_raw = some raw)
    (hcm : msg.channel_id = cid) (hres : resolve raw = some e)
    (hdup : hasSameReaction msg.reactions e = false)
    (h0 : outcomes 0 = ApplyResult.httpError status)
    (h429 : status ≠ 429) (h5xx : ¬(500 ≤ status ∧ status < 600)) :
    (processMessage s msg resolve outcomes).applyCalls = 1 ∧
    (processMessage s msg resolve outcomes).failedDelta = 1 ∧
    (processMessage s msg resolve outcomes).backoffSleeps = [] ∧
    (∀ m : Int, m < 0 → effectiveMaxRetry m = 0) := by
  have hnt : isTransientStatus status = false := by
    unfold isTransientStatus
    simp only [Bool.or_eq_false_iff, Bool.and_eq_false_iff, beq_eq_false_iff_ne, ne_eq,
      decide_eq_false_iff_not, not_le, not_lt]
    omega
  rw [processMessage_run s msg resolve outcomes gid cid raw e hg hen hch hraw hcm hres hdup,
    retryLoop_nonTransient outcomes _ status h0 hnt]
  refine ⟨rfl, rfl, rfl, ?_⟩
  intro m hm
  unfold effectiveMaxRetry
  omega

/-- C10 witness: the non-transient stop at a concrete HTTP 400 error and
the clamp at `max_retry = -5`. -/
theorem C10_non_transient_stop_witness :
    (processMessage exSettings exMsg exResolve (fun _ => ApplyResult.httpError 400)).applyCalls = 1 ∧
    (processMessage exSettings exMsg exResolve (fun _ => ApplyResult.httpError 400)).failedDelta = 1 ∧
    (processMessage exSettings exMsg exResolve (fun _ => ApplyResult.httpError 400)).backoffSleeps = [] ∧
    effectiveMaxRetry (-5) = 0 := by
  have h := C10_non_transient_stop exSettings exMsg exResolve
    (fun _ => ApplyResult.httpError 400) 1 1 "ok" (RuntimeEmoji.uni "ok") 400
    rfl rfl rfl rfl rfl rfl rfl rfl (by decide) (by decide)
  exact ⟨h.1, h.2.1, h.2.2.1, h.2.2.2 (-5) (by norm_num)⟩
